import Mathlib

/-!
Verification of the Osdag welded plate-girder capacity and optimization core
(`src/osdag/design_type/plate_girder/design_checks.py` and
`weldedPlateGirder.py`) against its natural-language specification.

Conventions of the shallow embedding:
* Python floats are modelled as `ℚ`; the value `float('inf')` produced at a
  few places in the source is modelled by the two-point extension `QInf`.
* Python raises `ZeroDivisionError` on division by zero.  Where a claim is
  about raising, the division is embedded with `divOpt` (returning `none`
  for a raise); pure formula helpers whose theorems carry nonzero-denominator
  hypotheses use Lean total division instead.
* Methods mutating `self` are embedded as state-passing functions over
  `PGState`, whose fields keep the source attribute names.
* Library routines of the repository that are outside `src/`
  (`IS800_2007.*`, `Unsymmetrical_I_Section_Properties.*`) are modelled from
  the spec; each such definition carries a doc comment saying so.
-/

/-- Rational numbers extended with a single point at positive infinity,
modelling the Python value `float('inf')` used by the source for failed
slenderness and deflection computations. -/
inductive QInf where
  | fin (q : ℚ)
  | inf
deriving DecidableEq

/-- Comparison `a <= b` on `QInf`, following IEEE semantics of Python floats
(`inf <= inf` is true, `inf <= finite` is false). -/
def QInf.leB : QInf → QInf → Bool
  | .fin a, .fin b => a ≤ b
  | .fin _, .inf => true
  | .inf, .fin _ => false
  | .inf, .inf => true

/-- Strict comparison `a < b` on `QInf`. -/
def QInf.ltB : QInf → QInf → Bool
  | .fin a, .fin b => a < b
  | .fin _, .inf => true
  | .inf, _ => false

/-- Binary maximum on `QInf` (Python `max`). -/
def QInf.max2 (a b : QInf) : QInf := if QInf.leB a b then b else a

/-- Subtract a rational from a `QInf` value (`inf - q = inf`). -/
def QInf.subQ : QInf → ℚ → QInf
  | .fin a, q => .fin (a - q)
  | .inf, _ => .inf

/-- Multiply a `QInf` value by a positive rational (`inf * q = inf`; the
source only multiplies by the positive constant `1e6`). -/
def QInf.mulQ : QInf → ℚ → QInf
  | .fin a, q => .fin (a * q)
  | .inf, _ => .inf

/-- Add a rational to a `QInf` value. -/
def QInf.addQ (q : ℚ) : QInf → QInf
  | .fin a => .fin (q + a)
  | .inf => .inf

/-- Divide a `QInf` value by a nonzero rational (`inf / q = inf`). -/
def QInf.divQ : QInf → ℚ → QInf
  | .fin a, q => .fin (a / q)
  | .inf, _ => .inf

/-- Checked division modelling Python `/`: `none` stands for the
`ZeroDivisionError` raised when the denominator is zero. -/
def divOpt (a b : ℚ) : Option ℚ := if b = 0 then none else some (a / b)

/-- Section ductility classes of IS 800:2007 Table 2 (`KEY_Plastic`,
`KEY_Compact`, `KEY_SemiCompact`, `"Slender"` in the source). -/
inductive SectionClass where
  | Plastic
  | Compact
  | SemiCompact
  | Slender
deriving DecidableEq

/-- Lateral support configuration (`KEY_DESIGN_TYPE_FLEXURE`). -/
inductive SupportType where
  | laterallySupported
  | laterallyUnsupported
deriving DecidableEq

/-- Web design philosophy (`KEY_WEB_PHILOSOPHY`): `thick` is
`'Thick Web without ITS'`, `thin` covers the stiffened-web variants. -/
inductive WebPhilosophy where
  | thick
  | thin
deriving DecidableEq

/-- Shear buckling method (`KEY_ShearBucklingOption`). -/
inductive ShearBucklingOption where
  | simplePostCritical
  | tensionField
deriving DecidableEq

/-- Longitudinal stiffener configuration (`KEY_LongitudnalStiffener`). -/
inductive LongStiffenerOption where
  | no
  | one
  | two
deriving DecidableEq

/-- Load and support case (`KEY_BENDING_MOMENT_SHAPE`); `unknown` stands for
any unrecognized string, which the source handles by a logged fallback. -/
inductive LoadingCase where
  | udlPinPin
  | udlFixFix
  | plPinPin
  | plFixFix
  | unknown
deriving DecidableEq

/-- Deflection criterion (`KEY_MAX_DEFL`): the string `'NA'` or a numeric
span divisor `n` (the allowable deflection is `L / n`).  An unparseable
string behaves like `NA` in the source and is not modelled separately. -/
inductive DeflCriteria where
  | NA
  | num (n : ℚ)
deriving DecidableEq

/-- The evaluation state threaded through one full check pass: the subset of
`self` attributes of `PlateGirderWelded` that the embedded methods read or
write.  Field names follow the source attribute names. -/
structure PGState where
  total_depth : ℚ
  top_flange_thickness : ℚ
  bottom_flange_thickness : ℚ
  top_flange_width : ℚ
  bottom_flange_width : ℚ
  web_thickness : ℚ
  eff_depth : ℚ
  c : Option ℚ      -- `None`/`'NA'` is `none`
  fy : ℚ
  fu : ℚ
  modulus_of_elasticity : ℚ
  moment : ℚ        -- `self.load.moment`
  shear_force : ℚ   -- `self.load.shear_force`
  gamma_m0 : ℚ
  epsilon : ℚ
  b1 : ℚ
  length : ℚ
  end_stiffwidth : ℚ
  int_thickness_list : List ℚ
  support_type : SupportType
  web_philosophy : WebPhilosophy
  shear_buckling_option : ShearBucklingOption
  long_Stiffner : LongStiffenerOption
  loading_case : LoadingCase
  deflection_criteria : DeflCriteria
  shear_ratio : ℚ
  endshear_ratio : ℚ
  moment_ratio : ℚ
  web_buckling_ratio : ℚ
  deflection_ratio : QInf
  V_d : ℚ
  V_cr : ℚ
  Md : ℚ
  end_stiffthickness : ℚ
  Critical_buckling_resistance : ℚ
  section_class : SectionClass
deriving DecidableEq

/-- A concrete, physically sensible base state (geometry of the spec's
end-to-end scenario A: depth 600, flanges 300 x 16, web 10, span 10 m),
used by the closed witness and counterexample theorems. -/
def baseState : PGState where
  total_depth := 600
  top_flange_thickness := 16
  bottom_flange_thickness := 16
  top_flange_width := 300
  bottom_flange_width := 300
  web_thickness := 10
  eff_depth := 568
  c := none
  fy := 250
  fu := 410
  modulus_of_elasticity := 200000
  moment := 1
  shear_force := 1
  gamma_m0 := 1
  epsilon := 1
  b1 := 100
  length := 10000
  end_stiffwidth := 50
  int_thickness_list := [6, 8]
  support_type := .laterallySupported
  web_philosophy := .thick
  shear_buckling_option := .simplePostCritical
  long_Stiffner := .no
  loading_case := .udlPinPin
  deflection_criteria := .NA
  shear_ratio := 0
  endshear_ratio := 0
  moment_ratio := 0
  web_buckling_ratio := 0
  deflection_ratio := .fin 0
  V_d := 0
  V_cr := 0
  Md := 0
  end_stiffthickness := 0
  Critical_buckling_resistance := 0
  section_class := .Plastic

/-- The combined-class assignment of `section_classification`
(`design_checks.py` lines 31-63): the nested conditional over the top-flange
class, the web class and the bottom-flange class, transcribed arm by arm.
The final `else` arms of the source (comments `# SemiCompact`,
`# flange_class_top == SemiCompact`) are the catch-all `_` arms here. -/
def section_classification_combine (flange_class_top web_class flange_class_bottom :
    SectionClass) : SectionClass :=
  if flange_class_bottom = .Slender ∨ web_class = .Slender ∨ flange_class_top = .Slender then
    .Slender
  else
    match flange_class_top with
    | .Plastic =>
      match web_class with
      | .Plastic =>
        match flange_class_bottom with
        | .Plastic => .Plastic
        | .Compact => .Compact
        | _ => .SemiCompact
      | .Compact =>
        if flange_class_bottom = .Plastic ∨ flange_class_bottom = .Compact then .Compact
        else .SemiCompact
      | _ => .SemiCompact
    | .Compact =>
      match web_class with
      | .Plastic =>
        if flange_class_bottom = .Plastic ∨ flange_class_bottom = .Compact then .Compact
        else .SemiCompact
      | .Compact =>
        if flange_class_bottom = .Plastic ∨ flange_class_bottom = .Compact then .Compact
        else .SemiCompact
      | _ => .SemiCompact
    | _ => .SemiCompact

/-- Ductility rank: larger means less ductile (Plastic > Compact >
SemiCompact in the spec's ordering, Slender worst of all). -/
def SectionClass.rank : SectionClass → ℕ
  | .Plastic => 0
  | .Compact => 1
  | .SemiCompact => 2
  | .Slender => 3

/-- Inverse of `SectionClass.rank` on `0..3`. -/
def SectionClass.ofRank : ℕ → SectionClass
  | 0 => .Plastic
  | 1 => .Compact
  | 2 => .SemiCompact
  | _ => .Slender

/-- The combination rule as the spec words it (section 4.1): if any of the
three component classes is Slender the section is Slender, otherwise the
combined class is the least ductile of the three under
Plastic > Compact > SemiCompact.  Stated from the spec, to be compared with
`section_classification_combine` from the source. -/
def spec_combined_class (top web bot : SectionClass) : SectionClass :=
  if top = .Slender ∨ web = .Slender ∨ bot = .Slender then .Slender
  else .ofRank (max top.rank (max web.rank bot.rank))

/-- The utilization-ratio initialization of `set_input_values`
(`weldedPlateGirder.py` lines 791-795): every ratio starts at `0`. -/
def set_input_values_ratios (s : PGState) : PGState :=
  { s with shear_ratio := 0, endshear_ratio := 0, moment_ratio := 0,
           deflection_ratio := .fin 0, web_buckling_ratio := 0 }

/-- Rational stand-in for pi squared, used only inside spec-modelled
helpers whose exact value no claim depends on. -/
def piSq : ℚ := 98696 / 10000

/-- Rational stand-in for the square root of three, used only inside
spec-modelled helpers whose exact value no claim depends on. -/
def sqrt3Q : ℚ := 1732 / 1000

/-- Modelled from the spec: `IS800_2007.cl_8_4_2_2_tau_crc_Simple_postcritical`
is outside `src/`.  The spec (section 4.2) only names a "critical shear
stress" derived from the panel coefficient; it is modelled here with the
standard clause 8.4.2.2 shape `Kv pi^2 E / (12 (1 - mu^2) (d/tw)^2)` with a
rational stand-in for pi^2.  Lean total division applies at `tw = 0`; no
theorem relies on the value there. -/
def is800_tau_crc (Kv E mu d tw : ℚ) : ℚ :=
  Kv * piSq * E / (12 * (1 - mu ^ 2) * (d / tw) ^ 2)

/-- Modelled from the spec: `IS800_2007.cl_8_4_2_2_lambda_w_Simple_postcritical`
is outside `src/`.  The spec names only a web slenderness parameter derived
from `fy` and the critical stress; it is modelled as `fy / (sqrt3 tau_crc)`
(the square of the code's value).  No claim depends on the value. -/
def is800_lambda_w (fy tau_crc : ℚ) : ℚ := fy / (sqrt3Q * tau_crc)

/-- Modelled from the spec: `IS800_2007.cl_8_4_2_2_tau_b_Simple_postcritical`
is outside `src/`.  The spec names only a "buckling reduction factor"
applied to the yield stress; modelled with the clause 8.4.2.2 regimes over
the slenderness parameter.  No claim depends on the value. -/
def is800_tau_b (lambda_w fy : ℚ) : ℚ :=
  if lambda_w ≤ 8 / 10 then fy / sqrt3Q
  else if lambda_w < 12 / 10 then (1 - 8 / 10 * (lambda_w - 8 / 10)) * fy / sqrt3Q
  else fy / (sqrt3Q * lambda_w ^ 2)

/-- Modelled from the spec: `IS800_2007.cl_8_4_2_2_Vcr_Simple_postcritical`
is outside `src/`.  The spec: the "resulting critical shear resistance" is
the buckling stress times the shear area. -/
def is800_Vcr (tau_b A_vg : ℚ) : ℚ := tau_b * A_vg

/-- `shear_buckling_check_simple_postcritical` (`design_checks.py` lines
248-272).  The final `self.load.shear_force / self.V_cr` is embedded with
`divOpt`: a zero `V_cr` makes the Python source raise `ZeroDivisionError`,
modelled as `none`. -/
def shear_buckling_check_simple_postcritical (s : PGState)
    (eff_depth D tf_top tf_bot tw V c : ℚ) : Option (Bool × PGState) :=
  if eff_depth ≤ 0 then
    some (false, { s with V_cr := 0, shear_ratio := 2 })
  else
    let A_vg := eff_depth * tw
    let K_v :=
      if c = 0 ∨ 1 ≤ c / eff_depth then
        if c ≠ 0 then 535 / 100 + 4 / (c / eff_depth) ^ 2 else 535 / 100
      else 4 + (535 / 100) / (c / eff_depth) ^ 2
    let E := s.modulus_of_elasticity
    let mu : ℚ := 3 / 10
    let tau_crc := is800_tau_crc K_v E mu eff_depth s.web_thickness
    let lambda_w := is800_lambda_w s.fy tau_crc
    let tau_b := is800_tau_b lambda_w s.fy
    let V_cr := is800_Vcr tau_b A_vg
    match divOpt s.shear_force V_cr with
    | none => none
    | some q => some (V < V_cr, { s with V_cr := V_cr, shear_ratio := max q s.shear_ratio })

/-- `check_web_crippling` (`design_checks.py` lines 337-387).  The whole body
is wrapped in `try/except` returning `False`, so a zero `gamma_m0` (a
`ZeroDivisionError` in Python) is the `false` branch here, and the function
never raises.  `sqrtQ` stands for `math.sqrt`; the claims hold for every
choice of it.  No utilization ratio is written. -/
def check_web_crippling (sqrtQ : ℚ → ℚ) (s : PGState) (N tw fy d : ℚ) : Bool :=
  if N ≤ 0 ∨ tw ≤ 0 ∨ fy ≤ 0 ∨ d ≤ 0 then false
  else if s.gamma_m0 = 0 then false
  else
    let k1 : ℚ := 325 / 100
    let k2 : ℚ := 15 / 100
    let E := s.modulus_of_elasticity
    let P_w := (k1 * k2 * tw * tw * sqrtQ (fy * E)) * (1 + N / d) / s.gamma_m0
    s.shear_force ≤ P_w

/-- `web_crippling_laterally_supported_thick_web` (`design_checks.py` lines
326-335): on non-positive web height it returns `False` without touching
the state; otherwise it defers to `check_web_crippling`.  The state is
returned unchanged in all cases because the source writes no attribute. -/
def web_crippling_laterally_supported_thick_web (sqrtQ : ℚ → ℚ) (s : PGState)
    (Fy tw b1 : ℚ) : Bool × PGState :=
  let web_height := s.total_depth - s.top_flange_thickness - s.bottom_flange_thickness
  if web_height ≤ 0 then (false, s)
  else (check_web_crippling sqrtQ s b1 tw Fy web_height, s)

/-- Python `round(x)` on an exact rational: round half to even. -/
def pyRoundInt (x : ℚ) : ℤ :=
  if x - ⌊x⌋ < 1 / 2 then ⌊x⌋
  else if 1 / 2 < x - ⌊x⌋ then ⌊x⌋ + 1
  else if ⌊x⌋ % 2 = 0 then ⌊x⌋ else ⌊x⌋ + 1

/-- Python `round(x, 2)`: round to two decimal places, half to even.
Binary floating-point artifacts are out of scope per the spec (section 1
non-goals). -/
def pyRound2 (x : ℚ) : ℚ := (pyRoundInt (x * 100) : ℚ) / 100

/-- The moment-shear interaction value before the elastic cap and the
rounding of `calc_Mdv` (`design_checks.py` lines 215-221): `Mdv` as the
source computes it from `beta`, `Mfd` and `Md`. -/
def MdvUncapped (V Vd Zp Fy gamma_m0 D tw tf_top tf_bot : ℚ) : ℚ :=
  let beta := (2 * V / Vd - 1) ^ 2
  let d := D - (tf_top + tf_bot)
  let Aw := d * tw
  let Zfd := Zp - Aw * D / 4
  let Mfd := Zfd * Fy / gamma_m0
  let Md := Zp * Fy / gamma_m0
  Md - beta * (Md - Mfd)

/-- `calc_Mdv` (`design_checks.py` lines 214-223): the interaction value,
capped at `1.2 Ze Fy / gamma_m0` and rounded to two decimals. -/
def calc_Mdv (V Vd Zp Ze Fy gamma_m0 D tw tf_top tf_bot : ℚ) : ℚ :=
  let Mdv := MdvUncapped V Vd Zp Fy gamma_m0 D tw tf_top tf_bot
  let Mdv_limit := 12 / 10 * Ze * Fy / gamma_m0
  pyRound2 (min Mdv Mdv_limit)

/-- Modelled from the spec: `IS800_2007.cl_8_2_1_2_design_bending_strength`
is outside `src/`.  Per the spec (section 4.2) the low-shear design bending
strength is the full-section strength `beta_b Zp fy / gamma_m0` (with
`beta_b = 1` for Plastic/Compact and `Ze/Zp` for SemiCompact) capped by the
elastic-modulus upper limit `1.2 Ze fy / gamma_m0` for a simply supported
member.  The Slender arm mirrors the SemiCompact one; the orchestrator
rejects Slender before reaching it. -/
def is800_design_bending_strength (section_class : SectionClass)
    (Zp Ze Fy gamma_m0 : ℚ) : ℚ :=
  match section_class with
  | .Plastic => min (Zp * Fy / gamma_m0) (12 / 10 * Ze * Fy / gamma_m0)
  | .Compact => min (Zp * Fy / gamma_m0) (12 / 10 * Ze * Fy / gamma_m0)
  | _ => Ze * Fy / gamma_m0

/-- `moment_capacity_laterally_supported` (`design_checks.py` lines
100-113).  `sqrt3` stands for `math.sqrt(3)`; theorems assume it positive.
The high-shear branch (`V > 0.6 V_d`) calls `calc_Mdv`, the low-shear branch
the (spec-modelled) clause 8.2.1.2 strength. -/
def moment_capacity_laterally_supported (sqrt3 : ℚ) (s : PGState)
    (V Zp Ze Fy gamma_m0 D tw tf_top tf_bot : ℚ)
    (section_class : SectionClass) : Bool × PGState :=
  let A_vg := (D - tf_top - tf_bot) * tw
  let Vd := A_vg * Fy / (sqrt3 * gamma_m0)
  let Md :=
    if 6 / 10 * Vd < V then calc_Mdv V Vd Zp Ze Fy gamma_m0 D tw tf_top tf_bot
    else is800_design_bending_strength section_class Zp Ze Fy gamma_m0
  let s1 := { s with V_d := Vd, Md := Md }
  if Md = 0 then (false, { s1 with moment_ratio := 2 })
  else (s.moment ≤ Md, { s1 with moment_ratio := s.moment / Md })

/-- The catalog selection of `optimized_method` (`weldedPlateGirder.py`
lines 1044-1067): `next((t for t in lst if t >= opt), lst[-1])` — the first
catalog entry at least `opt`, falling back to the last entry when none
qualifies (`none` only for an empty catalog, where Python would raise
`IndexError`). -/
def catalog_next_ge (lst : List ℚ) (opt : ℚ) : Option ℚ :=
  match lst.find? (fun t => decide (opt ≤ t)) with
  | some t => some t
  | none => lst.getLast?

/-- `ceil_to_nearest` (`weldedPlateGirder.py` lines 1039-1040):
`math.ceil(x / multiple) * multiple`. -/
def ceil_to_nearest (x multiple : ℚ) : ℚ := (⌈x / multiple⌉ : ℤ) * multiple

/-- Modelled from the spec:
`Unsymmetrical_I_Section_Properties.calc_MomentOfAreaZ` is outside `src/`.
Modelled as the standard second moment of area of the built-up unsymmetric
I-section about its centroidal strong axis — the same computation the
in-`src` `shear_stress_unsym_I` performs inline (`design_checks.py` lines
677-691), returning `0` for a section of zero area. -/
def calc_MomentOfAreaZ (D b_ft t_ft b_fb t_fb t_w : ℚ) : ℚ :=
  let A_t := b_ft * t_ft
  let A_b := b_fb * t_fb
  let h_w := D - t_ft - t_fb
  let A_w := t_w * h_w
  let A := A_t + A_b + A_w
  if A = 0 then 0
  else
    let y_b := t_fb / 2
    let y_w := t_fb + h_w / 2
    let y_t := t_fb + h_w + t_ft / 2
    let y_na := (A_b * y_b + A_w * y_w + A_t * y_t) / A
    b_fb * t_fb ^ 3 / 12 + A_b * (y_b - y_na) ^ 2 +
      (t_w * h_w ^ 3 / 12 + A_w * (y_w - y_na) ^ 2) +
      (b_ft * t_ft ^ 3 / 12 + A_t * (y_t - y_na) ^ 2)

/-- `deflection_from_moment_kNm_mm` (`design_checks.py` lines 614-632):
`float('inf')` for a zero modulus or zero inertia, otherwise the load-case
coefficient times `M L^2 / (E I 1.5)`, with the unknown-case fallback to
the UDL pinned-pinned coefficient. -/
def deflection_from_moment_kNm_mm (M_kNm L E I : ℚ) (case : LoadingCase) : QInf :=
  if E = 0 ∨ I = 0 then .inf
  else
    let pref := M_kNm * L ^ 2 / (E * I * (3 / 2))
    match case with
    | .udlPinPin => .fin (5 / 48 * pref)
    | .udlFixFix => .fin (1 / 32 * pref)
    | .plPinPin => .fin (1 / 12 * pref)
    | .plFixFix => .fin (1 / 24 * pref)
    | .unknown => .fin (5 / 48 * pref)

/-- `evaluate_deflection_kNm_mm` (`design_checks.py` lines 634-669).  The
section inertia comes from the spec-modelled `calc_MomentOfAreaZ`; a zero
inertia fails with ratio 2, the criterion `NA` (or a non-positive numeric
criterion) passes with ratio 0, otherwise the deflection is compared with
`L / n`. -/
def evaluate_deflection_kNm_mm (s : PGState) (M_kNm L E : ℚ) (case : LoadingCase)
    (criteria : DeflCriteria) : Bool × PGState :=
  let I := calc_MomentOfAreaZ s.total_depth s.top_flange_width s.top_flange_thickness
      s.bottom_flange_width s.bottom_flange_thickness s.web_thickness
  if I = 0 then (false, { s with deflection_ratio := .fin 2 })
  else
    let delta := deflection_from_moment_kNm_mm M_kNm L E I case
    match criteria with
    | .NA => (true, { s with deflection_ratio := .fin 0 })
    | .num n =>
      if n ≤ 0 then (true, { s with deflection_ratio := .fin 0 })
      else
        let allowable := L / n
        if allowable = 0 then (false, { s with deflection_ratio := .fin 2 })
        else (QInf.leB delta (.fin allowable), { s with deflection_ratio := delta.divQ allowable })

/-- Outcome of one iteration of the `end_panel_stiffener_calc` catalog loop
for a trial thickness: `skip` for the two bare `continue` paths (minimum
thickness-to-width violation, zero buckling area), `fail2` for the
`Pd == 0 or P_bf == 0` path (which writes ratio 2 and continues), and
`ratio` for a fully evaluated entry. -/
inductive EPStep where
  | skip
  | fail2 (Pd : ℚ)
  | ratio (Pd r : ℚ)

/-- One iteration of the catalog loop of `end_panel_stiffener_calc`
(`design_checks.py` lines 431-492), as a pure function of the loop-invariant
data: `w0` is `self.end_stiffwidth` (read, never written, each iteration),
`V` is `self.load.shear_force`, `cr` the resolved panel spacing, `t` the
trial thickness.  `fcdFn` stands for the out-of-`src`
`IS800_2007.cl_7_1_2_1_design_compressisive_stress_plategirder` and `sqrtQ`
for `math.sqrt`; every theorem below holds for all choices of both. -/
def end_panel_entry (fcdFn : ℚ → ℚ → QInf → ℚ → ℚ) (sqrtQ : ℚ → ℚ)
    (w0 V tw fy gamma_m0 d eps Bf_top Bf_bot E cr t : ℚ) : EPStep :=
  let w1 :=
    if w0 ≤ 0 then
      let w' := (min Bf_top Bf_bot - tw) / 2
      if w' ≤ 0 then 50 else w'
    else w0
  let w := if 14 * t * eps < w1 then 14 * t * eps else w1
  if t < w / 16 then .skip
  else
    let wcl_bearing := min (20 * tw) (d / 2)
    let A_q_bearing := 2 * w * t + wcl_bearing * tw
    let wcl_buckling := min (20 * tw) (cr / 2)
    let A_q_buckling := 2 * w * t + wcl_buckling * tw
    let I_x := 2 * (t * w ^ 3 / 12 + w * t * (tw / 2 + w / 2) ^ 2) +
      wcl_buckling * tw ^ 3 / 12
    if A_q_buckling = 0 then .skip
    else
      let r_x := sqrtQ (I_x / A_q_buckling)
      let Le := 7 / 10 * d
      let KL_r : QInf := if 0 < r_x then .fin (Le / r_x) else .inf
      let fcd := fcdFn fy gamma_m0 KL_r E
      let Pd := A_q_buckling * fcd
      let P_bf := A_q_bearing * fy / gamma_m0
      if Pd = 0 ∨ P_bf = 0 then .fail2 Pd
      else .ratio Pd (max (V / Pd) (V / P_bf))

/-- Whether a trial thickness is accepted by the catalog loop: its entry is
fully evaluated and its utilization ratio is at most one. -/
def end_panel_entry_passes (fcdFn : ℚ → ℚ → QInf → ℚ → ℚ) (sqrtQ : ℚ → ℚ)
    (w0 V tw fy gamma_m0 d eps Bf_top Bf_bot E cr t : ℚ) : Bool :=
  match end_panel_entry fcdFn sqrtQ w0 V tw fy gamma_m0 d eps Bf_top Bf_bot E cr t with
  | .ratio _ r => r ≤ 1
  | _ => false

/-- The catalog loop of `end_panel_stiffener_calc` (`design_checks.py`
lines 430-492), threading the state writes (`end_stiffthickness` at the top
of each iteration, `Critical_buckling_resistance` and `endshear_ratio`
where the source assigns them) and stopping at the first passing entry. -/
def end_panel_loop (fcdFn : ℚ → ℚ → QInf → ℚ → ℚ) (sqrtQ : ℚ → ℚ)
    (w0 V tw fy gamma_m0 d eps Bf_top Bf_bot E cr : ℚ) :
    List ℚ → PGState → Bool × PGState
  | [], s => (false, s)
  | t :: rest, s =>
    let s1 := { s with end_stiffthickness := t }
    match end_panel_entry fcdFn sqrtQ w0 V tw fy gamma_m0 d eps Bf_top Bf_bot E cr t with
    | .skip => end_panel_loop fcdFn sqrtQ w0 V tw fy gamma_m0 d eps Bf_top Bf_bot E cr rest s1
    | .fail2 Pd =>
      end_panel_loop fcdFn sqrtQ w0 V tw fy gamma_m0 d eps Bf_top Bf_bot E cr rest
        { s1 with Critical_buckling_resistance := Pd, endshear_ratio := 2 }
    | .ratio Pd r =>
      let s2 := { s1 with Critical_buckling_resistance := Pd, endshear_ratio := r }
      if r ≤ 1 then (true, s2)
      else end_panel_loop fcdFn sqrtQ w0 V tw fy gamma_m0 d eps Bf_top Bf_bot E cr rest s2

/-- The hard-coded thickness list searched by `end_panel_stiffener_calc`
(`design_checks.py` line 423).  Note it is not `self.int_thickness_list`. -/
def end_panel_thickness_list : List ℚ :=
  [8, 10, 12, 14, 16, 18, 20, 22, 25, 28, 32, 36, 40, 45, 50, 56, 63, 75, 80, 90, 100, 110, 120]

/-- The panel-spacing resolution at the head of `end_panel_stiffener_calc`
(`design_checks.py` lines 401-402): `None`, `0` and `'NA'` all default to
the web depth `d`. -/
def resolve_c (c : Option ℚ) (d : ℚ) : ℚ :=
  match c with
  | none => d
  | some x => if x = 0 then d else x

/-- The critical-shear preamble of `end_panel_stiffener_calc`
(`design_checks.py` lines 400-415): the panel coefficient and the
(spec-modelled) clause 8.4.2.2 machinery, writing `V_cr` into the state
before the catalog search.  The `Nf` of line 417 is computed but never used
by the source and is omitted. -/
def end_panel_precalc (s : PGState) (tw fy d E : ℚ) (c : Option ℚ) : PGState :=
  let A_vg := d * tw
  let cr := resolve_c c d
  let K_v := if cr / d < 1 then 4 + (535 / 100) / (cr / d) ^ 2
    else 535 / 100 + 4 / (cr / d) ^ 2
  let tau_crc := is800_tau_crc K_v E (3 / 10) d tw
  let lambda_w := is800_lambda_w fy tau_crc
  let tau_b := is800_tau_b lambda_w fy
  { s with V_cr := is800_Vcr tau_b A_vg }

/-- `end_panel_stiffener_calc` (`design_checks.py` lines 391-500): guard on
`d <= 0`, the `V_cr` preamble, the emptiness test on the configured
`int_thickness_list`, the catalog loop over the hard-coded list, the final
`shear_ratio` update, and the reset of `end_stiffthickness` on failure. -/
def end_panel_stiffener_calc (fcdFn : ℚ → ℚ → QInf → ℚ → ℚ) (sqrtQ : ℚ → ℚ)
    (s : PGState) (Bf_top Bf_bot tw fy gamma_m0 d tf_top total_depth
    effective_length tf_bot E eps : ℚ) (c : Option ℚ) : Bool × PGState :=
  if d ≤ 0 then (false, { s with endshear_ratio := 2, shear_ratio := max 2 s.shear_ratio })
  else
    let s1 := end_panel_precalc s tw fy d E c
    if s.int_thickness_list = [] then (false, s1)
    else
      let res := end_panel_loop fcdFn sqrtQ s.end_stiffwidth s.shear_force tw fy
        gamma_m0 d eps Bf_top Bf_bot E (resolve_c c d) end_panel_thickness_list s1
      let s3 := { res.2 with shear_ratio := max res.2.endshear_ratio res.2.shear_ratio }
      if !res.1 then (false, { s3 with end_stiffthickness := 0 })
      else (true, s3)

/-- The check methods `design_check` dispatches to, collected as a record of
state transformers.  `design_check` in the source is a method of the mixin
combining `PlateGirderWelded` with `PlateGirderLogic`; abstracting the leaf
checks lets the orchestration theorems quantify over every possible outcome
of the leaves.  Fields follow the source method names; the two
`min_web_thickness_thick_web` call sites (unstiffened and stiffened
arguments) and the two philosophy-specific moment/shear calls get one field
each. -/
structure CheckSuite where
  section_classification : PGState → Bool × PGState
  beta_value : PGState → PGState
  min_web_thickness_thick : PGState → Bool
  min_web_thickness_thin : PGState → Bool
  shear_capacity_thick : PGState → Bool × PGState
  web_buckling : PGState → Bool × PGState
  web_crippling : PGState → Bool × PGState
  moment_supported : PGState → Bool × PGState
  moment_unsupported : PGState → Bool × PGState
  long_stiffener_check : PGState → Bool
  shear_buckling_simple : PGState → Bool × PGState
  intermediate_stiffener : PGState → Bool × PGState
  shear_buckling_tension : PGState → Bool × PGState
  tension_field_intermediate : PGState → Bool × PGState
  end_panel : PGState → Bool × PGState
  deflection : PGState → Bool × PGState

/-- Result of the branch phase of `design_check` (`weldedPlateGirder.py`
lines 836-916): either one of the early `return False` exits (invalid
geometry, rejected classification, missing or non-positive stiffener
spacing, insufficient web thickness), or the completed branch carrying the
moment verdict and the pre-demotion shear verdict. -/
inductive BranchResult where
  | early (s : PGState)
  | ok (momentchecks shearchecks : Bool) (s : PGState)

/-- Sections 0-3 of `design_check` (`weldedPlateGirder.py` lines 836-916):
geometry gate, classification gate, beta value, then the web-philosophy
branch.  In the thin branch the source resets `shear_ratio`, converts `c`
to float after the `'NA'` gate, runs the (non-gating) longitudinal
stiffener check, and the minimum web thickness gate. -/
def design_check_branch (su : CheckSuite) (s : PGState) : BranchResult :=
  if s.eff_depth ≤ 0 then .early s
  else
    let r1 := su.section_classification s
    if !r1.1 then .early r1.2
    else
      let s2 := su.beta_value r1.2
      match s.web_philosophy with
      | .thick =>
        if su.min_web_thickness_thick s2 then
          let rs1 := su.shear_capacity_thick s2
          let rs2 := su.web_buckling rs1.2
          let rs3 := su.web_crippling rs2.2
          let mc := match s.support_type with
            | .laterallySupported => su.moment_supported rs3.2
            | .laterallyUnsupported => su.moment_unsupported rs3.2
          .ok mc.1 (rs1.1 && rs2.1 && rs3.1) mc.2
        else .early s2
      | .thin =>
        let s2a := { s2 with shear_ratio := 0 }
        match s.c with
        | none => .early s2a
        | some cv =>
          let s2b := { s2a with c := some cv }
          if cv ≤ 0 then .early s2b
          else
            let _long := if s.long_Stiffner ≠ .no then su.long_stiffener_check s2b else true
            if su.min_web_thickness_thin s2b then
              let rs1 := match s.shear_buckling_option with
                | .simplePostCritical => su.shear_buckling_simple s2b
                | .tensionField => su.shear_buckling_tension s2b
              let rs2 := match s.shear_buckling_option with
                | .simplePostCritical => su.intermediate_stiffener rs1.2
                | .tensionField => su.tension_field_intermediate rs1.2
              let mc := match s.support_type with
                | .laterallySupported => su.moment_supported rs2.2
                | .laterallyUnsupported => su.moment_unsupported rs2.2
              .ok mc.1 (rs1.1 && rs2.1) mc.2
            else .early s2b

/-- The observable outcome of one `design_check` run: the returned verdict,
the three aggregate flags, the end-panel result, whether the end-panel and
deflection checks were reached, whether the run took one of the early
`return False` exits, and the final state. -/
structure DCResult where
  verdict : Bool
  momentchecks : Bool
  shearchecks : Bool
  defl_check : Bool
  end_panel_result : Bool
  ran_end_panel : Bool
  ran_deflection : Bool
  early_return : Bool
  finalState : PGState
deriving DecidableEq

/-- `design_check` (`weldedPlateGirder.py` lines 821-942): the branch phase
followed by sections 4-6 — the end-panel stiffener check (whose failure
demotes `shearchecks` to `False`), the deflection check, and the final
conjunction `momentchecks and shearchecks and defl_check`. -/
def design_check (su : CheckSuite) (s : PGState) : DCResult :=
  match design_check_branch su s with
  | .early s1 =>
    { verdict := false, momentchecks := false, shearchecks := false, defl_check := false,
      end_panel_result := false, ran_end_panel := false, ran_deflection := false,
      early_return := true, finalState := s1 }
  | .ok mc sh s7 =>
    let rep := su.end_panel s7
    let sh2 := if rep.1 then sh else false
    let rdf := su.deflection rep.2
    { verdict := mc && sh2 && rdf.1, momentchecks := mc, shearchecks := sh2,
      defl_check := rdf.1, end_panel_result := rep.1, ran_end_panel := true,
      ran_deflection := true, early_return := false, finalState := rdf.2 }

/-- A check suite in which every leaf passes and leaves the state unchanged,
used by closed instances of the orchestration theorems. -/
def trivialSuite : CheckSuite where
  section_classification := fun s => (true, s)
  beta_value := fun s => s
  min_web_thickness_thick := fun _ => true
  min_web_thickness_thin := fun _ => true
  shear_capacity_thick := fun s => (true, s)
  web_buckling := fun s => (true, s)
  web_crippling := fun s => (true, s)
  moment_supported := fun s => (true, s)
  moment_unsupported := fun s => (true, s)
  long_stiffener_check := fun _ => true
  shear_buckling_simple := fun s => (true, s)
  intermediate_stiffener := fun s => (true, s)
  shear_buckling_tension := fun s => (true, s)
  tension_field_intermediate := fun s => (true, s)
  end_panel := fun s => (true, s)
  deflection := fun s => (true, s)

/-- The candidate dimensions of one optimizer particle after the name/value
zip of `assign_particle_to_section` (`weldedPlateGirder.py` lines 813-824):
for a symmetric design the source copies `tf` into both `tf_top`/`tf_bot`
and `bf` into both widths, so the post-zip record always carries the six
plate dimensions plus the thin-web stiffener variables. -/
structure Sec where
  tf_top : ℚ
  tf_bot : ℚ
  tw : ℚ
  bf_top : ℚ
  bf_bot : ℚ
  D : ℚ
  c : ℚ
  t_stiff : ℚ
deriving DecidableEq

/-- The `self`-synchronisation of `assign_particle_to_section`
(`weldedPlateGirder.py` lines 826-852) restricted to the embedded state:
geometry fields, the guarded `eff_depth`, the stiffener width, and `c`
(`'NA'`, i.e. `none`, for a thick-web design).  The intermediate-stiffener
width/thickness attributes also written there are outside the embedded
state and outside every claim. -/
def assign_particle_to_section (sec : Sec) (is_thick_web : Bool) (s : PGState) : PGState :=
  let s1 :=
    { s with top_flange_thickness := sec.tf_top, bottom_flange_thickness := sec.tf_bot,
             web_thickness := sec.tw, top_flange_width := sec.bf_top,
             bottom_flange_width := sec.bf_bot, total_depth := sec.D }
  let s2 := { s1 with eff_depth :=
    if sec.tf_top + sec.tf_bot < sec.D then sec.D - sec.tf_top - sec.tf_bot else 0 }
  let s3 := { s2 with end_stiffwidth :=
    if 0 < sec.tw then min sec.bf_top sec.bf_bot - sec.tw / 2 - 10 else 0 }
  if is_thick_web then { s3 with c := none } else { s3 with c := some sec.c }

/-- The structural mass term of `_objective_function_with_penalty`
(`weldedPlateGirder.py` lines 953-967): plate area times span times the
steel density constant `7.85e-6`, plus the estimated intermediate-stiffener
mass for a thin-web design with positive spacing and positive stiffener
plate dimensions. -/
def pg_mass (sec : Sec) (length : ℚ) (is_thick_web : Bool) : ℚ :=
  let area := sec.bf_top * sec.tf_top + sec.bf_bot * sec.tf_bot +
    sec.tw * (sec.D - sec.tf_top - sec.tf_bot)
  let mass := area * length * (785 / 100000000)
  if is_thick_web then mass
  else if 0 < sec.c then
    let n_stiff := max (length / sec.c - 1) 0
    let width_stiff := min sec.bf_top sec.bf_bot - sec.tw / 2 - 10
    let height_stiff := sec.D - sec.tf_top - sec.tf_bot
    if 0 < width_stiff ∧ 0 < height_stiff then
      mass + n_stiff * 2 * width_stiff * sec.t_stiff * height_stiff * (785 / 100000000)
    else mass
  else mass

/-- The penalty term of `_objective_function_with_penalty`
(`weldedPlateGirder.py` lines 975-983): zero for a safe design; otherwise
`(max_ratio - 1) * 1e6` when the worst of the moment, shear and deflection
ratios exceeds one, else the fixed `1e6`. -/
def pg_penalty (is_safe : Bool) (moment_r shear_r : ℚ) (defl_r : QInf) : QInf :=
  if is_safe then .fin 0
  else
    let max_ratio := QInf.max2 (QInf.max2 (.fin moment_r) (.fin shear_r)) defl_r
    if QInf.ltB (.fin 1) max_ratio then (max_ratio.subQ 1).mulQ 1000000
    else .fin 1000000

/-- `_objective_function_with_penalty` (`weldedPlateGirder.py` lines
945-985): assign the particle, compute the mass, run the full check suite
silently, and return mass plus penalty. -/
def objective_function_with_penalty (su : CheckSuite) (sec : Sec) (is_thick_web : Bool)
    (s : PGState) : QInf :=
  let mass := pg_mass sec s.length is_thick_web
  let s1 := assign_particle_to_section sec is_thick_web s
  let r := design_check su s1
  QInf.addQ mass (pg_penalty r.verdict r.finalState.moment_ratio r.finalState.shear_ratio
    r.finalState.deflection_ratio)

theorem pyRoundInt_ge_floor (x : ℚ) : ⌊x⌋ ≤ pyRoundInt x := by
  unfold pyRoundInt
  split_ifs <;> omega

theorem pyRoundInt_le_floor_add_one (x : ℚ) : pyRoundInt x ≤ ⌊x⌋ + 1 := by
  unfold pyRoundInt
  split_ifs <;> omega

theorem pyRoundInt_mono {x y : ℚ} (h : x ≤ y) : pyRoundInt x ≤ pyRoundInt y := by
  rcases lt_or_eq_of_le (Int.floor_le_floor h) with hf | hf
  · calc pyRoundInt x ≤ ⌊x⌋ + 1 := pyRoundInt_le_floor_add_one x
      _ ≤ ⌊y⌋ := by omega
      _ ≤ pyRoundInt y := pyRoundInt_ge_floor y
  · unfold pyRoundInt
    rw [← hf]
    have hxy : x - ⌊x⌋ ≤ y - ⌊x⌋ := by linarith
    split_ifs <;> first | omega | linarith

theorem pyRound2_mono {x y : ℚ} (h : x ≤ y) : pyRound2 x ≤ pyRound2 y := by
  unfold pyRound2
  have h100 : x * 100 ≤ y * 100 := by linarith
  have := pyRoundInt_mono h100
  have hc : ((pyRoundInt (x * 100) : ℚ)) ≤ ((pyRoundInt (y * 100) : ℚ)) := by
    exact_mod_cast this
  linarith

/-- C4: for every combination of top-flange class, bottom-flange class and
web class, the combined section class assigned by the source's nested
conditional equals the weakest-link rule of the spec — Slender if any
component is Slender, otherwise the least ductile of the three under
Plastic > Compact > SemiCompact — with no special case skipped. -/
theorem C4_classification_weakest_link (t w b : SectionClass) :
    section_classification_combine t w b = spec_combined_class t w b := by
  cases t <;> cases w <;> cases b <;> rfl

/-- C2 counterexample: at the start of a fresh evaluation
(`set_input_values`, `weldedPlateGirder.py` lines 791-795) every
utilization ratio holds `0`, a passing value — not a failing sentinel at
least `2.0` or infinity as the claim states. -/
theorem C2_counterexample :
    (set_input_values_ratios baseState).moment_ratio = 0 ∧
    (set_input_values_ratios baseState).shear_ratio = 0 ∧
    (set_input_values_ratios baseState).endshear_ratio = 0 ∧
    (set_input_values_ratios baseState).web_buckling_ratio = 0 ∧
    (set_input_values_ratios baseState).deflection_ratio = .fin 0 ∧
    ¬(2 ≤ (set_input_values_ratios baseState).moment_ratio) := by
  refine ⟨rfl, rfl, rfl, rfl, rfl, ?_⟩
  decide

/-- C2 amended: at the start of every fresh evaluation, before any
capacity check runs, every utilization ratio in the evaluation state holds
the value `0` — a value that reads as passing, so an exception or skipped
branch silently reads as safe unless the verdict flag is consulted. -/
theorem C2_amended_ratios_start_at_zero (s : PGState) :
    (set_input_values_ratios s).moment_ratio = 0 ∧
    (set_input_values_ratios s).shear_ratio = 0 ∧
    (set_input_values_ratios s).endshear_ratio = 0 ∧
    (set_input_values_ratios s).web_buckling_ratio = 0 ∧
    (set_input_values_ratios s).deflection_ratio = .fin 0 :=
  ⟨rfl, rfl, rfl, rfl, rfl⟩

/-- A geometry whose flange thicknesses consume the whole depth, so the
clear web height is zero (the spec's end-to-end scenario B shape). -/
def zeroWebHeightState : PGState :=
  { baseState with total_depth := 10, top_flange_thickness := 5, bottom_flange_thickness := 5 }

/-- A state with zero web thickness: positive effective depth but zero web
area. -/
def zeroWebThicknessState : PGState := { baseState with web_thickness := 0 }

/-- C1 counterexample: on the invalid geometry with zero web height,
`web_crippling_laterally_supported_thick_web` returns fail but leaves the
evaluation state — in particular every utilization ratio — completely
unchanged at its initial `0`, instead of setting a failing sentinel at
least `2.0`; so not every check writes a failing ratio. -/
theorem C1_counterexample :
    web_crippling_laterally_supported_thick_web (fun q => q) zeroWebHeightState 250 10 100 =
      (false, zeroWebHeightState) ∧
    zeroWebHeightState.shear_ratio = 0 ∧
    zeroWebHeightState.web_buckling_ratio = 0 ∧
    ¬(2 ≤ zeroWebHeightState.shear_ratio) := by
  refine ⟨?_, rfl, rfl, by decide⟩
  norm_num [web_crippling_laterally_supported_thick_web, zeroWebHeightState, baseState]

/-- C1 amended: for non-positive effective web depth,
`shear_buckling_check_simple_postcritical` returns fail with `shear_ratio`
set to the sentinel `2.0` and does not raise, and
`web_crippling_laterally_supported_thick_web` returns fail without raising
but writes no utilization ratio at all; moreover with positive effective
depth and zero web thickness (zero web area) the simple post-critical
check's division by the computed capacity `V_cr` is not intercepted and
raises (`none`). -/
theorem C1_amended_invalid_geometry (sqrtQ : ℚ → ℚ) (s : PGState)
    (eff D tf_top tf_bot tw V c Fy tw2 b1 : ℚ)
    (heff : eff ≤ 0)
    (hweb : s.total_depth - s.top_flange_thickness - s.bottom_flange_thickness ≤ 0) :
    shear_buckling_check_simple_postcritical s eff D tf_top tf_bot tw V c =
      some (false, { s with V_cr := 0, shear_ratio := 2 }) ∧
    (2:ℚ) ≤ 2 ∧
    web_crippling_laterally_supported_thick_web sqrtQ s Fy tw2 b1 = (false, s) ∧
    shear_buckling_check_simple_postcritical zeroWebThicknessState 568 600 16 16 0 1 0 = none := by
  refine ⟨?_, le_refl 2, ?_, ?_⟩
  · unfold shear_buckling_check_simple_postcritical
    rw [if_pos heff]
  · unfold web_crippling_laterally_supported_thick_web
    rw [if_pos hweb]
  · norm_num [shear_buckling_check_simple_postcritical, zeroWebThicknessState, baseState,
      divOpt, is800_Vcr, is800_tau_b, is800_tau_crc, is800_lambda_w, sqrt3Q, piSq]

/-- Closed instance of `C1_amended_invalid_geometry` at a concrete invalid
geometry. -/
theorem C1_amended_witness :
    shear_buckling_check_simple_postcritical zeroWebHeightState (-1) 10 5 5 10 1 0 =
      some (false, { zeroWebHeightState with V_cr := 0, shear_ratio := 2 }) ∧
    (2:ℚ) ≤ 2 ∧
    web_crippling_laterally_supported_thick_web (fun q => q) zeroWebHeightState 250 10 100 =
      (false, zeroWebHeightState) ∧
    shear_buckling_check_simple_postcritical zeroWebThicknessState 568 600 16 16 0 1 0 = none :=
  C1_amended_invalid_geometry (fun q => q) zeroWebHeightState (-1) 10 5 5 10 1 0 250 10 100
    (by norm_num) (by norm_num [zeroWebHeightState, baseState])

/-- A thin-web configuration whose stiffener spacing is the string `'NA'`
(the spec's end-to-end scenario C). -/
def thinWebNAState : PGState :=
  { baseState with web_philosophy := .thin, c := none }

/-- C3 counterexample: for the thin-web candidate with spacing `'NA'` the
thin branch is taken but `design_check` returns early
(`weldedPlateGirder.py` lines 886-888) and the end-panel stiffener check
and the deflection check are never run, contradicting "the orchestrator
afterward always runs" them. -/
theorem C3_counterexample :
    (design_check trivialSuite thinWebNAState).ran_end_panel = false ∧
    (design_check trivialSuite thinWebNAState).ran_deflection = false ∧
    (design_check trivialSuite thinWebNAState).verdict = false := by
  norm_num [design_check, design_check_branch, trivialSuite, thinWebNAState, baseState]

/-- C3 amended: for every check suite and every candidate on which
`design_check` does not take one of its early `return False` exits (valid
geometry, accepted classification, minimum web thickness satisfied, and —
for the thin-web branch — a positive numeric stiffener spacing), the
orchestrator afterward always runs the end-panel stiffener check and the
deflection check, a failed end-panel check demotes the overall shear
verdict to failing, and the overall verdict equals moment AND shear AND
deflection. -/
theorem C3_amended_orchestration (su : CheckSuite) (s : PGState)
    (h : (design_check su s).early_return = false) :
    (design_check su s).ran_end_panel = true ∧
    (design_check su s).ran_deflection = true ∧
    ((design_check su s).end_panel_result = false → (design_check su s).shearchecks = false) ∧
    (design_check su s).verdict =
      ((design_check su s).momentchecks && (design_check su s).shearchecks &&
        (design_check su s).defl_check) := by
  rcases hb : design_check_branch su s with s1 | ⟨mc, sh, s7⟩
  · simp [design_check, hb] at h
  · simp only [design_check, hb]
    cases hep : (su.end_panel s7).1 <;> simp [hep]

/-- Closed instance of `C3_amended_orchestration` on the all-passing suite
and the scenario-A geometry. -/
theorem C3_amended_witness :
    (design_check trivialSuite baseState).early_return = false ∧
    ((design_check trivialSuite baseState).ran_end_panel = true ∧
     (design_check trivialSuite baseState).ran_deflection = true ∧
     ((design_check trivialSuite baseState).end_panel_result = false →
       (design_check trivialSuite baseState).shearchecks = false) ∧
     (design_check trivialSuite baseState).verdict =
       ((design_check trivialSuite baseState).momentchecks &&
         (design_check trivialSuite baseState).shearchecks &&
         (design_check trivialSuite baseState).defl_check)) :=
  ⟨by norm_num [design_check, design_check_branch, trivialSuite, baseState],
   C3_amended_orchestration trivialSuite baseState
     (by norm_num [design_check, design_check_branch, trivialSuite, baseState])⟩

/-- C5 counterexample: a geometry with positive `V_d` (here `250/433`,
using `433/250` for `sqrt(3)`) and applied shear `601/1732`, just above
`0.6 V_d = 600/1732`, on which the high-shear interaction result equals the
low-shear design bending strength (both `6/5`, because the elastic cap
`1.2 Ze Fy / gamma_m0` binds) — not strictly less as the claim states. -/
theorem C5_counterexample :
    (6 : ℚ) / 10 * ((4 - 1 - 1) * (1 / 2) * 1 / ((433 / 250) * 1)) < 601 / 1732 ∧
    (moment_capacity_laterally_supported (433 / 250) baseState (601 / 1732) 2 1 1 1 4 (1 / 2) 1 1
        .Plastic).2.Md = 6 / 5 ∧
    is800_design_bending_strength .Plastic 2 1 1 1 = 6 / 5 := by
  refine ⟨by norm_num, ?_, by norm_num [is800_design_bending_strength]⟩
  norm_num [moment_capacity_laterally_supported, calc_Mdv, MdvUncapped, pyRound2, pyRoundInt,
    baseState, min_def]

/-- C5 amended: in the laterally-supported moment check with positive
plastic shear capacity `V_d`, zero applied shear always selects the
low-shear design bending strength; for `V` above `0.6 V_d` (with positive
web area, depth, yield stress and partial factor, for a Plastic or Compact
class) the interaction value before the elastic cap and the 2-decimal
rounding is strictly below the full-section strength `Zp Fy / gamma_m0`,
and the final `calc_Mdv` result never exceeds the low-shear strength
rounded to 2 decimals — equality being possible when the elastic cap
binds, so "strictly less" holds only before cap and rounding. -/
theorem C5_amended_moment_shear_interaction (sqrt3 : ℚ) (s : PGState)
    (V Zp Ze Fy gamma_m0 D tw tf_top tf_bot : ℚ) (cls : SectionClass)
    (hs3 : 0 < sqrt3) (hg : 0 < gamma_m0) (hFy : 0 < Fy)
    (hAw : 0 < (D - (tf_top + tf_bot)) * tw) (hD : 0 < D)
    (hV : 6 / 10 * ((D - tf_top - tf_bot) * tw * Fy / (sqrt3 * gamma_m0)) < V)
    (hcls : cls = SectionClass.Plastic ∨ cls = SectionClass.Compact) :
    (moment_capacity_laterally_supported sqrt3 s 0 Zp Ze Fy gamma_m0 D tw tf_top tf_bot
        cls).2.Md = is800_design_bending_strength cls Zp Ze Fy gamma_m0 ∧
    MdvUncapped V ((D - tf_top - tf_bot) * tw * Fy / (sqrt3 * gamma_m0)) Zp Fy gamma_m0 D tw
        tf_top tf_bot < Zp * Fy / gamma_m0 ∧
    calc_Mdv V ((D - tf_top - tf_bot) * tw * Fy / (sqrt3 * gamma_m0)) Zp Ze Fy gamma_m0 D tw
        tf_top tf_bot ≤ pyRound2 (is800_design_bending_strength cls Zp Ze Fy gamma_m0) := by
  have hAw' : 0 < (D - tf_top - tf_bot) * tw := by nlinarith [hAw]
  have hVd : 0 < (D - tf_top - tf_bot) * tw * Fy / (sqrt3 * gamma_m0) :=
    div_pos (mul_pos hAw' hFy) (mul_pos hs3 hg)
  have hb1 : MdvUncapped V ((D - tf_top - tf_bot) * tw * Fy / (sqrt3 * gamma_m0)) Zp Fy
      gamma_m0 D tw tf_top tf_bot < Zp * Fy / gamma_m0 := by
    have h2V : (12 : ℚ) / 10 <
        2 * V / ((D - tf_top - tf_bot) * tw * Fy / (sqrt3 * gamma_m0)) := by
      rw [lt_div_iff₀ hVd]
      linarith
    have hbpos : 0 <
        (2 * V / ((D - tf_top - tf_bot) * tw * Fy / (sqrt3 * gamma_m0)) - 1) ^ 2 := by
      have : (0 : ℚ) <
          2 * V / ((D - tf_top - tf_bot) * tw * Fy / (sqrt3 * gamma_m0)) - 1 := by linarith
      positivity
    have hMfd : (0 : ℚ) < (D - (tf_top + tf_bot)) * tw * D / 4 * Fy / gamma_m0 := by
      have h1 : (0 : ℚ) < (D - (tf_top + tf_bot)) * tw * D := mul_pos hAw hD
      have h2 : (0 : ℚ) < (D - (tf_top + tf_bot)) * tw * D / 4 := by linarith
      exact div_pos (mul_pos h2 hFy) hg
    simp only [MdvUncapped]
    have key : Zp * Fy / gamma_m0 -
        (Zp - (D - (tf_top + tf_bot)) * tw * D / 4) * Fy / gamma_m0 =
        (D - (tf_top + tf_bot)) * tw * D / 4 * Fy / gamma_m0 := by ring
    rw [key]
    nlinarith [mul_pos hbpos hMfd]
  refine ⟨?_, hb1, ?_⟩
  · have hnot : ¬(6 / 10 * ((D - tf_top - tf_bot) * tw * Fy / (sqrt3 * gamma_m0)) < 0) := by
      intro hcon
      nlinarith
    simp only [moment_capacity_laterally_supported]
    rw [if_neg hnot]
    split <;> rfl
  · rcases hcls with h | h <;> subst h <;>
      · simp only [calc_Mdv, is800_design_bending_strength]
        exact pyRound2_mono (min_le_min (le_of_lt hb1) (le_refl _))

/-- Closed instance of `C5_amended_moment_shear_interaction` at a concrete
geometry with `V_d = 1/4` (using `2` for `sqrt(3)`) and `V = 2/5`. -/
theorem C5_amended_witness :
    (moment_capacity_laterally_supported 2 baseState 0 2 1 1 1 4 (1 / 2) 1 1
        SectionClass.Plastic).2.Md =
      is800_design_bending_strength SectionClass.Plastic 2 1 1 1 ∧
    MdvUncapped (2 / 5) ((4 - 1 - 1) * (1 / 2) * 1 / (2 * 1)) 2 1 1 4 (1 / 2) 1 1 < 2 * 1 / 1 ∧
    calc_Mdv (2 / 5) ((4 - 1 - 1) * (1 / 2) * 1 / (2 * 1)) 2 1 1 1 4 (1 / 2) 1 1 ≤
      pyRound2 (is800_design_bending_strength SectionClass.Plastic 2 1 1 1) :=
  C5_amended_moment_shear_interaction 2 baseState (2 / 5) 2 1 1 1 4 (1 / 2) 1 1
    SectionClass.Plastic (by norm_num) (by norm_num) (by norm_num) (by norm_num) (by norm_num)
    (by norm_num) (Or.inl rfl)

/-- C6 counterexample: when the raw continuous optimum exceeds every entry
of the thickness catalog, the `next(..., lst[-1])` fallback of
`optimized_method` returns the largest catalog entry, which is strictly
below the optimum — the rounding is downward there, contradicting "always
conservative (upward), never down". -/
theorem C6_counterexample :
    catalog_next_ge [8, 10] 50 = some 10 ∧ ¬((50 : ℚ) ≤ 10) := by
  constructor
  · norm_num [catalog_next_ge, List.find?]
  · norm_num

/-- C6 amended: the modulus-based rounding of widths, depth and spacing
(`ceil_to_nearest`) is always conservative, and the catalog selection of
the thickness variables returns a value at least the raw continuous
optimum whenever some catalog entry is at least the optimum; when the
optimum exceeds every catalog entry the selection falls back to the last
(largest) entry, which is below the optimum. -/
theorem C6_amended_rounding_conservative (lst : List ℚ) (opt x m t : ℚ)
    (hm : 0 < m) (hex : ∃ u ∈ lst, opt ≤ u) (ht : catalog_next_ge lst opt = some t) :
    x ≤ ceil_to_nearest x m ∧ opt ≤ t := by
  constructor
  · unfold ceil_to_nearest
    have hceil := Int.le_ceil (x / m)
    rw [div_le_iff₀ hm] at hceil
    linarith
  · unfold catalog_next_ge at ht
    cases hf : lst.find? (fun u => decide (opt ≤ u)) with
    | some u =>
      rw [hf] at ht
      have hu := List.find?_some hf
      simp only [Option.some.injEq] at ht
      subst ht
      exact of_decide_eq_true hu
    | none =>
      exfalso
      obtain ⟨u, humem, hule⟩ := hex
      have := List.find?_eq_none.mp hf u humem
      simp at this
      exact absurd hule (not_le.mpr this)

/-- Closed instance of `C6_amended_rounding_conservative`: catalog
`[8, 10]`, optimum `9`, selected entry `10`; modulus rounding of `7` to a
multiple of `10`. -/
theorem C6_amended_witness : (7 : ℚ) ≤ ceil_to_nearest 7 10 ∧ (9 : ℚ) ≤ 10 :=
  C6_amended_rounding_conservative [8, 10] 9 7 10 10 (by norm_num)
    ⟨10, by norm_num, by norm_num⟩ (by norm_num [catalog_next_ge, List.find?])

/-- A check suite identical to `trivialSuite` except that the
laterally-supported moment check fails writing `moment_ratio = 3/2`. -/
def failingMomentSuiteHigh : CheckSuite :=
  { trivialSuite with moment_supported := fun s => (false, { s with moment_ratio := 3 / 2 }) }

/-- A check suite identical to `trivialSuite` except that the
laterally-supported moment check fails leaving every ratio at `0`. -/
def failingMomentSuiteLow : CheckSuite :=
  { trivialSuite with moment_supported := fun s => (false, s) }

/-- The scenario-A candidate dimensions as an optimizer particle. -/
def secA : Sec :=
  { tf_top := 16, tf_bot := 16, tw := 10, bf_top := 300, bf_bot := 300, D := 600,
    c := 0, t_stiff := 0 }

/-- C7: the objective is mass plus penalty, but for a failing candidate
whose worst utilization ratio is `3/2 > 1` the penalty is
`(3/2 - 1) * 1e6 = 500000`, strictly smaller than the fixed `1e6` penalty
applied when a check fails with all ratios at most one — the code
contradicts the claim (and its own intent of a high penalty guiding the
search back to feasibility). -/
theorem C7_penalty_smaller_above_one :
    objective_function_with_penalty failingMomentSuiteHigh secA true baseState =
      QInf.fin (pg_mass secA 10000 true + 500000) ∧
    objective_function_with_penalty failingMomentSuiteLow secA true baseState =
      QInf.fin (pg_mass secA 10000 true + 1000000) ∧
    pg_penalty false (3 / 2) 0 (.fin 0) = .fin 500000 ∧
    pg_penalty false (1 / 2) 0 (.fin 0) = .fin 1000000 ∧
    ((500000 : ℚ) < 1000000) := by
  refine ⟨?_, ?_, ?_, ?_, by norm_num⟩
  · norm_num [objective_function_with_penalty, assign_particle_to_section, design_check,
      design_check_branch, failingMomentSuiteHigh, trivialSuite, secA, baseState, pg_penalty,
      QInf.max2, QInf.leB, QInf.ltB, QInf.subQ, QInf.mulQ, QInf.addQ, pg_mass, min_def]
  · norm_num [objective_function_with_penalty, assign_particle_to_section, design_check,
      design_check_branch, failingMomentSuiteLow, trivialSuite, secA, baseState, pg_penalty,
      QInf.max2, QInf.leB, QInf.ltB, QInf.subQ, QInf.mulQ, QInf.addQ, pg_mass, min_def]
  · norm_num [pg_penalty, QInf.max2, QInf.leB, QInf.ltB, QInf.subQ, QInf.mulQ]
  · norm_num [pg_penalty, QInf.max2, QInf.leB, QInf.ltB, QInf.subQ, QInf.mulQ]

/-- C8: for a section with nonzero second moment of area, the deflection
evaluation with criterion `NA` always returns pass with
`deflection_ratio = 0`, for every applied moment, span, modulus and load
case; and likewise passes with ratio `0` for a non-positive numeric
criterion. -/
theorem C8_deflection_NA_passes (s : PGState) (M L E : ℚ) (case : LoadingCase) (n : ℚ)
    (hI : calc_MomentOfAreaZ s.total_depth s.top_flange_width s.top_flange_thickness
        s.bottom_flange_width s.bottom_flange_thickness s.web_thickness ≠ 0)
    (hn : n ≤ 0) :
    evaluate_deflection_kNm_mm s M L E case .NA =
      (true, { s with deflection_ratio := .fin 0 }) ∧
    evaluate_deflection_kNm_mm s M L E case (.num n) =
      (true, { s with deflection_ratio := .fin 0 }) := by
  constructor
  · simp only [evaluate_deflection_kNm_mm]
    rw [if_neg hI]
  · simp only [evaluate_deflection_kNm_mm]
    rw [if_neg hI, if_pos hn]

/-- Closed instance of `C8_deflection_NA_passes` on the scenario-A
geometry (nonzero inertia) with arbitrary moment, span and modulus. -/
theorem C8_deflection_witness :
    evaluate_deflection_kNm_mm baseState 5 7 11 .udlPinPin .NA =
      (true, { baseState with deflection_ratio := .fin 0 }) ∧
    evaluate_deflection_kNm_mm baseState 5 7 11 .udlPinPin (.num (-3)) =
      (true, { baseState with deflection_ratio := .fin 0 }) :=
  C8_deflection_NA_passes baseState 5 7 11 .udlPinPin (-3)
    (by norm_num [calc_MomentOfAreaZ, baseState]) (by norm_num)

theorem end_panel_loop_cons_skip (fcdFn : ℚ → ℚ → QInf → ℚ → ℚ) (sqrtQ : ℚ → ℚ)
    (w0 V tw fy gamma_m0 d eps Bf_top Bf_bot E cr t : ℚ) (rest : List ℚ) (s : PGState)
    (h : end_panel_entry fcdFn sqrtQ w0 V tw fy gamma_m0 d eps Bf_top Bf_bot E cr t = .skip) :
    end_panel_loop fcdFn sqrtQ w0 V tw fy gamma_m0 d eps Bf_top Bf_bot E cr (t :: rest) s =
      end_panel_loop fcdFn sqrtQ w0 V tw fy gamma_m0 d eps Bf_top Bf_bot E cr rest
        { s with end_stiffthickness := t } := by
  simp [end_panel_loop, h]

theorem end_panel_loop_cons_fail2 (fcdFn : ℚ → ℚ → QInf → ℚ → ℚ) (sqrtQ : ℚ → ℚ)
    (w0 V tw fy gamma_m0 d eps Bf_top Bf_bot E cr t : ℚ) (rest : List ℚ) (s : PGState)
    (Pd : ℚ)
    (h : end_panel_entry fcdFn sqrtQ w0 V tw fy gamma_m0 d eps Bf_top Bf_bot E cr t =
      .fail2 Pd) :
    end_panel_loop fcdFn sqrtQ w0 V tw fy gamma_m0 d eps Bf_top Bf_bot E cr (t :: rest) s =
      end_panel_loop fcdFn sqrtQ w0 V tw fy gamma_m0 d eps Bf_top Bf_bot E cr rest
        { s with end_stiffthickness := t, Critical_buckling_resistance := Pd, endshear_ratio := 2 } := by
  simp [end_panel_loop, h]

theorem end_panel_loop_cons_pass (fcdFn : ℚ → ℚ → QInf → ℚ → ℚ) (sqrtQ : ℚ → ℚ)
    (w0 V tw fy gamma_m0 d eps Bf_top Bf_bot E cr t : ℚ) (rest : List ℚ) (s : PGState)
    (Pd r : ℚ)
    (h : end_panel_entry fcdFn sqrtQ w0 V tw fy gamma_m0 d eps Bf_top Bf_bot E cr t =
      .ratio Pd r) (hr : r ≤ 1) :
    end_panel_loop fcdFn sqrtQ w0 V tw fy gamma_m0 d eps Bf_top Bf_bot E cr (t :: rest) s =
      (true,
        { s with end_stiffthickness := t, Critical_buckling_resistance := Pd, endshear_ratio := r }) := by
  simp [end_panel_loop, h, hr]

theorem end_panel_loop_cons_high_ratio (fcdFn : ℚ → ℚ → QInf → ℚ → ℚ) (sqrtQ : ℚ → ℚ)
    (w0 V tw fy gamma_m0 d eps Bf_top Bf_bot E cr t : ℚ) (rest : List ℚ) (s : PGState)
    (Pd r : ℚ)
    (h : end_panel_entry fcdFn sqrtQ w0 V tw fy gamma_m0 d eps Bf_top Bf_bot E cr t =
      .ratio Pd r) (hr : ¬r ≤ 1) :
    end_panel_loop fcdFn sqrtQ w0 V tw fy gamma_m0 d eps Bf_top Bf_bot E cr (t :: rest) s =
      end_panel_loop fcdFn sqrtQ w0 V tw fy gamma_m0 d eps Bf_top Bf_bot E cr rest
        { s with end_stiffthickness := t, Critical_buckling_resistance := Pd, endshear_ratio := r } := by
  simp [end_panel_loop, h, hr]

theorem end_panel_loop_spec (fcdFn : ℚ → ℚ → QInf → ℚ → ℚ) (sqrtQ : ℚ → ℚ)
    (w0 V tw fy gamma_m0 d eps Bf_top Bf_bot E cr : ℚ) (l : List ℚ) :
    ∀ s : PGState,
      ((end_panel_loop fcdFn sqrtQ w0 V tw fy gamma_m0 d eps Bf_top Bf_bot E cr l s).1 = true ↔
        ∃ t ∈ l, end_panel_entry_passes fcdFn sqrtQ w0 V tw fy gamma_m0 d eps Bf_top Bf_bot
          E cr t = true) ∧
      ((end_panel_loop fcdFn sqrtQ w0 V tw fy gamma_m0 d eps Bf_top Bf_bot E cr l s).1 = true →
        some ((end_panel_loop fcdFn sqrtQ w0 V tw fy gamma_m0 d eps Bf_top Bf_bot E cr
            l s).2.end_stiffthickness) =
          l.find? (end_panel_entry_passes fcdFn sqrtQ w0 V tw fy gamma_m0 d eps Bf_top
            Bf_bot E cr)) := by
  induction l with
  | nil => intro s; simp [end_panel_loop]
  | cons t rest ih =>
    intro s
    cases hstep : end_panel_entry fcdFn sqrtQ w0 V tw fy gamma_m0 d eps Bf_top Bf_bot E cr t with
    | skip =>
      have hp : end_panel_entry_passes fcdFn sqrtQ w0 V tw fy gamma_m0 d eps Bf_top Bf_bot
          E cr t = false := by simp [end_panel_entry_passes, hstep]
      rw [end_panel_loop_cons_skip fcdFn sqrtQ w0 V tw fy gamma_m0 d eps Bf_top Bf_bot E cr
        t rest s hstep]
      refine ⟨?_, ?_⟩
      · rw [(ih _).1]
        simp [hp]
      · intro hfound
        rw [List.find?_cons, hp]
        exact (ih _).2 hfound
    | fail2 Pd =>
      have hp : end_panel_entry_passes fcdFn sqrtQ w0 V tw fy gamma_m0 d eps Bf_top Bf_bot
          E cr t = false := by simp [end_panel_entry_passes, hstep]
      rw [end_panel_loop_cons_fail2 fcdFn sqrtQ w0 V tw fy gamma_m0 d eps Bf_top Bf_bot E cr
        t rest s Pd hstep]
      refine ⟨?_, ?_⟩
      · rw [(ih _).1]
        simp [hp]
      · intro hfound
        rw [List.find?_cons, hp]
        exact (ih _).2 hfound
    | ratio Pd r =>
      by_cases hr : r ≤ 1
      · have hp : end_panel_entry_passes fcdFn sqrtQ w0 V tw fy gamma_m0 d eps Bf_top Bf_bot
            E cr t = true := by simp [end_panel_entry_passes, hstep, hr]
        rw [end_panel_loop_cons_pass fcdFn sqrtQ w0 V tw fy gamma_m0 d eps Bf_top Bf_bot E cr
          t rest s Pd r hstep hr]
        refine ⟨?_, ?_⟩
        · simp only [true_iff]
          exact ⟨t, List.mem_cons_self t rest, hp⟩
        · intro _hfound
          rw [List.find?_cons, hp]
      · have hp : end_panel_entry_passes fcdFn sqrtQ w0 V tw fy gamma_m0 d eps Bf_top Bf_bot
            E cr t = false := by simp [end_panel_entry_passes, hstep, hr]
        rw [end_panel_loop_cons_high_ratio fcdFn sqrtQ w0 V tw fy gamma_m0 d eps Bf_top Bf_bot
          E cr t rest s Pd r hstep hr]
        refine ⟨?_, ?_⟩
        · rw [(ih _).1]
          simp [hp]
        · intro hfound
          rw [List.find?_cons, hp]
          exact (ih _).2 hfound

/-- C9 amended: with positive web depth and a non-empty configured
intermediate-stiffener thickness list, the end-panel check succeeds exactly
when some entry of the hard-coded thickness list `8..120` passes its
buckling-and-bearing test (outstand-capped width, width/16 minimum
thickness skip), and on success the selected thickness is the first
passing entry of that hard-coded list — the searched catalog is the
hard-coded list, not the configured `int_thickness_list`, whose emptiness
nevertheless makes the check fail. -/
theorem C9_amended_first_passing_entry (fcdFn : ℚ → ℚ → QInf → ℚ → ℚ) (sqrtQ : ℚ → ℚ)
    (s : PGState) (Bf_top Bf_bot tw fy gamma_m0 d tf_top total_depth effective_length
    tf_bot E eps : ℚ) (c : Option ℚ)
    (hd : 0 < d) (hne : s.int_thickness_list ≠ []) :
    ((end_panel_stiffener_calc fcdFn sqrtQ s Bf_top Bf_bot tw fy gamma_m0 d tf_top
        total_depth effective_length tf_bot E eps c).1 = true ↔
      ∃ t ∈ end_panel_thickness_list,
        end_panel_entry_passes fcdFn sqrtQ s.end_stiffwidth s.shear_force tw fy gamma_m0 d
          eps Bf_top Bf_bot E (resolve_c c d) t = true) ∧
    ((end_panel_stiffener_calc fcdFn sqrtQ s Bf_top Bf_bot tw fy gamma_m0 d tf_top
        total_depth effective_length tf_bot E eps c).1 = true →
      some ((end_panel_stiffener_calc fcdFn sqrtQ s Bf_top Bf_bot tw fy gamma_m0 d tf_top
          total_depth effective_length tf_bot E eps c).2.end_stiffthickness) =
        end_panel_thickness_list.find?
          (end_panel_entry_passes fcdFn sqrtQ s.end_stiffwidth s.shear_force tw fy gamma_m0
            d eps Bf_top Bf_bot E (resolve_c c d))) := by
  have hd' : ¬d ≤ 0 := not_le.mpr hd
  have hspec := end_panel_loop_spec fcdFn sqrtQ s.end_stiffwidth s.shear_force tw fy gamma_m0
    d eps Bf_top Bf_bot E (resolve_c c d) end_panel_thickness_list
    (end_panel_precalc s tw fy d E c)
  simp only [end_panel_stiffener_calc]
  rw [if_neg hd', if_neg hne]
  rcases hloop : end_panel_loop fcdFn sqrtQ s.end_stiffwidth s.shear_force tw fy gamma_m0 d
    eps Bf_top Bf_bot E (resolve_c c d) end_panel_thickness_list
    (end_panel_precalc s tw fy d E c) with ⟨found, s2⟩
  rw [hloop] at hspec
  cases found with
  | false =>
    simp only [Bool.not_false, if_pos]
    refine ⟨?_, ?_⟩
    · constructor
      · intro h; exact absurd h (by simp)
      · intro hex
        have := hspec.1.mpr hex
        simp at this
    · intro hcon
      exact absurd hcon (by simp)
  | true =>
    simp only [Bool.not_true]
    refine ⟨?_, ?_⟩
    · simp only [if_neg (by simp : ¬(false = true))]
      simp only [true_iff]
      exact hspec.1.mp rfl
    · intro _hfound
      simp only [if_neg (by simp : ¬(false = true))]
      have h2 := hspec.2 rfl
      simpa using h2

/-- Closed instance of `C9_amended_first_passing_entry` on the scenario-A
state with web depth 100, spacing 100 and simple stand-ins for the design
compressive stress and the square root. -/
theorem C9_amended_witness :
    ((end_panel_stiffener_calc (fun a b _ _ => a / b) (fun _ => 1) baseState 300 300 10 250 1
        100 16 600 10000 16 200000 1 (some 100)).1 = true ↔
      ∃ t ∈ end_panel_thickness_list,
        end_panel_entry_passes (fun a b _ _ => a / b) (fun _ => 1) baseState.end_stiffwidth
          baseState.shear_force 10 250 1 100 1 300 300 200000 (resolve_c (some 100) 100) t =
          true) ∧
    ((end_panel_stiffener_calc (fun a b _ _ => a / b) (fun _ => 1) baseState 300 300 10 250 1
        100 16 600 10000 16 200000 1 (some 100)).1 = true →
      some ((end_panel_stiffener_calc (fun a b _ _ => a / b) (fun _ => 1) baseState 300 300 10
          250 1 100 16 600 10000 16 200000 1 (some 100)).2.end_stiffthickness) =
        end_panel_thickness_list.find?
          (end_panel_entry_passes (fun a b _ _ => a / b) (fun _ => 1) baseState.end_stiffwidth
            baseState.shear_force 10 250 1 100 1 300 300 200000 (resolve_c (some 100) 100))) :=
  C9_amended_first_passing_entry (fun a b _ _ => a / b) (fun _ => 1) baseState 300 300 10 250 1
    100 16 600 10000 16 200000 1 (some 100) (by norm_num) (by simp [baseState])

/-- C9 counterexample: with the configured `int_thickness_list` empty the
end-panel check fails even though the first entry (8 mm) of the hard-coded
searched list passes on the very same inputs — so the check does not fail
exactly when "the catalog is empty or no catalog entry passes": the
emptiness test and the search use two different lists. -/
theorem C9_counterexample :
    (end_panel_stiffener_calc (fun a b _ _ => a / b) (fun _ => 1)
        { baseState with int_thickness_list := [] } 300 300 10 250 1 100 16 600 10000 16
        200000 1 (some 100)).1 = false ∧
    (end_panel_stiffener_calc (fun a b _ _ => a / b) (fun _ => 1) baseState 300 300 10 250 1
        100 16 600 10000 16 200000 1 (some 100)).1 = true ∧
    (end_panel_stiffener_calc (fun a b _ _ => a / b) (fun _ => 1) baseState 300 300 10 250 1
        100 16 600 10000 16 200000 1 (some 100)).2.end_stiffthickness = 8 := by
  refine ⟨?_, ?_, ?_⟩
  · norm_num [end_panel_stiffener_calc, end_panel_precalc, baseState]
  · norm_num [end_panel_stiffener_calc, end_panel_precalc, end_panel_loop, end_panel_entry,
      end_panel_thickness_list, resolve_c, baseState, min_def, max_def, is800_tau_crc,
      is800_lambda_w, is800_tau_b, is800_Vcr, sqrt3Q, piSq]
    simp
  · norm_num [end_panel_stiffener_calc, end_panel_precalc, end_panel_loop, end_panel_entry,
      end_panel_thickness_list, resolve_c, baseState, min_def, max_def, is800_tau_crc,
      is800_lambda_w, is800_tau_b, is800_Vcr, sqrt3Q, piSq]
    simp

/-- C10: whenever the catalog loop runs (positive depth, non-empty
configured list) and completes without a passing entry, the end-panel check
returns `False` and the selected end-stiffener thickness is reset to `0`,
never left at the last trial value. -/
theorem C10_failure_resets_thickness (fcdFn : ℚ → ℚ → QInf → ℚ → ℚ) (sqrtQ : ℚ → ℚ)
    (s : PGState) (Bf_top Bf_bot tw fy gamma_m0 d tf_top total_depth effective_length
    tf_bot E eps : ℚ) (c : Option ℚ)
    (hd : 0 < d) (hne : s.int_thickness_list ≠ [])
    (hnone : ∀ t ∈ end_panel_thickness_list,
      end_panel_entry_passes fcdFn sqrtQ s.end_stiffwidth s.shear_force tw fy gamma_m0 d eps
        Bf_top Bf_bot E (resolve_c c d) t = false) :
    (end_panel_stiffener_calc fcdFn sqrtQ s Bf_top Bf_bot tw fy gamma_m0 d tf_top total_depth
        effective_length tf_bot E eps c).1 = false ∧
    (end_panel_stiffener_calc fcdFn sqrtQ s Bf_top Bf_bot tw fy gamma_m0 d tf_top total_depth
        effective_length tf_bot E eps c).2.end_stiffthickness = 0 := by
  have hd' : ¬d ≤ 0 := not_le.mpr hd
  have hspec := end_panel_loop_spec fcdFn sqrtQ s.end_stiffwidth s.shear_force tw fy gamma_m0
    d eps Bf_top Bf_bot E (resolve_c c d) end_panel_thickness_list
    (end_panel_precalc s tw fy d E c)
  simp only [end_panel_stiffener_calc]
  rw [if_neg hd', if_neg hne]
  rcases hloop : end_panel_loop fcdFn sqrtQ s.end_stiffwidth s.shear_force tw fy gamma_m0 d
    eps Bf_top Bf_bot E (resolve_c c d) end_panel_thickness_list
    (end_panel_precalc s tw fy d E c) with ⟨found, s2⟩
  rw [hloop] at hspec
  cases found with
  | false => simp
  | true =>
    exfalso
    obtain ⟨t, ht, hp⟩ := hspec.1.mp rfl
    rw [hnone t ht] at hp
    simp at hp

/-- Closed instance of `C10_failure_resets_thickness`: a very wide
stiffener plate makes every catalog thickness fail the width/16 minimum
thickness test, so no entry passes and the thickness is reset to zero. -/
theorem C10_failure_witness :
    (end_panel_stiffener_calc (fun a b _ _ => a / b) (fun _ => 1)
        { baseState with end_stiffwidth := 10000 } 300 300 10 250 1 100 16 600 10000 16
        200000 100 (some 100)).1 = false ∧
    (end_panel_stiffener_calc (fun a b _ _ => a / b) (fun _ => 1)
        { baseState with end_stiffwidth := 10000 } 300 300 10 250 1 100 16 600 10000 16
        200000 100 (some 100)).2.end_stiffthickness = 0 :=
  C10_failure_resets_thickness (fun a b _ _ => a / b) (fun _ => 1)
    { baseState with end_stiffwidth := 10000 } 300 300 10 250 1 100 16 600 10000 16 200000
    100 (some 100) (by norm_num) (by simp [baseState])
    (by
      intro t ht
      fin_cases ht <;>
        norm_num [end_panel_entry_passes, end_panel_entry, baseState, resolve_c, min_def])

